import Mathlib

/-
Verification of the spelling-variant quiz core (main.py): the word catalog,
quiz generation, answer grading and scoring, and the persistence layer with
its statistics.  Python strings are modelled as Lean strings, with the
relevant string operations (str.strip, str.lower) re-implemented structurally
over the code-point list so they evaluate inside the kernel; Python floats
are idealized as exact rationals; Python's round is round-half-to-even on
those rationals.  Python dicts that always carry the same keys are modelled
as structures; the membership test `country in word` is modelled against the
explicit key list of the quiz-question dict.
-/

/-- The ASCII whitespace characters stripped by Python's str.strip(). -/
def pyIsSpace (c : Char) : Bool :=
  c = ' ' || c = '\t' || c = '\n' || c = '\r' || c = '\x0b' || c = '\x0c'

/-- Python str.strip(): remove leading and trailing whitespace. -/
def pyStrip (s : String) : String :=
  String.mk (((s.data.dropWhile pyIsSpace).reverse.dropWhile pyIsSpace).reverse)

/-- Python str.lower() restricted to the ASCII word set of this program. -/
def pyLower (s : String) : String :=
  String.mk (s.data.map Char.toLower)

/-- Python round() on a float idealized as an exact rational:
round half to even. -/
def pyRound (q : ℚ) : ℤ :=
  let f := Int.floor q
  if q - f < 1/2 then f
  else if (1 : ℚ)/2 < q - f then f + 1
  else if f % 2 = 0 then f else f + 1

/-- Python list indexing `l[i]`: non-negative indexes count from the front,
negative indexes count from the back; anything else raises IndexError
(modelled as `none`). -/
def pyGet (l : List α) (i : Int) : Option α :=
  if 0 ≤ i then l.get? i.toNat
  else if 0 ≤ i + l.length then l.get? (i + l.length).toNat
  else none

/-- One entry of a word group's `words` list: the per-country spellings plus
the optional disambiguating note (the `note` key is absent from most dict
literals in the source, hence `Option`). -/
structure WordVariant where
  us : String
  ca : String
  gb : String
  au : String
  nz : String
  note : Option String := none
deriving DecidableEq

/-- One entry of WORD_GROUPS. -/
structure WordGroup where
  name : String
  level : Nat
  words : List WordVariant
deriving DecidableEq

/-- The WORD_GROUPS constant of main.py, transcribed literally. -/
def WORD_GROUPS : List WordGroup := [
  { name := "Group 1", level := 1, words := [
      { us := "canceled", ca := "cancelled", gb := "cancelled", au := "cancelled", nz := "cancelled" },
      { us := "traveled", ca := "travelled", gb := "travelled", au := "travelled", nz := "travelled" }] },
  { name := "Group 2", level := 1, words := [
      { us := "defense", ca := "defence", gb := "defence", au := "defence", nz := "defence" }] },
  { name := "Group 3", level := 1, words := [
      { us := "learned", ca := "learnt", gb := "learnt", au := "learnt", nz := "learnt" },
      { us := "dreamed", ca := "dreamt", gb := "dreamt", au := "dreamt", nz := "dreamt" }] },
  { name := "Group 4", level := 1, words := [
      { us := "catalog", ca := "catalogue", gb := "catalogue", au := "catalogue", nz := "catalogue" },
      { us := "dialog", ca := "dialogue", gb := "dialogue", au := "dialogue", nz := "dialogue" }] },
  { name := "Group 5", level := 2, words := [
      { us := "tire", ca := "tire", gb := "tyre", au := "tyre", nz := "tyre" }] },
  { name := "Group 6", level := 2, words := [
      { us := "colorize", ca := "colourize", gb := "colourise", au := "colourise", nz := "colourise" }] },
  { name := "Group 7", level := 3, words := [
      { us := "program", ca := "program", gb := "program", au := "program", nz := "program",
        note := some "computer program" }] },
  { name := "Group 8", level := 3, words := [
      { us := "program", ca := "program", gb := "programme", au := "program", nz := "programme",
        note := some "concert program" }] }]

/-- Placeholder variant (never selected under the randint bounds). -/
def defaultVariant : WordVariant :=
  { us := "", ca := "", gb := "", au := "", nz := "" }

/-- Placeholder group. -/
def defaultGroup : WordGroup := { name := "", level := 0, words := [] }

/-- The dict built by select_words: a copied variant plus the group index and
the group's level. -/
structure SelectedWord where
  variant : WordVariant
  groupIndex : Nat
  level : Nat
deriving DecidableEq

/-- select_words of main.py.  The call random.randint(0, len-1) is modelled
by the external choice function `choice`, whose value for a group is used as
the index into that group's word list (in-bounds under the randint contract,
which theorems state as a hypothesis on `choice`). -/
def select_words (choice : Nat → Nat) : List SelectedWord :=
  WORD_GROUPS.enum.map fun gig =>
    { variant := gig.2.words.getD (choice gig.1) defaultVariant,
      groupIndex := gig.1,
      level := gig.2.level }

/-- The dict emitted per question by generate_quiz_data.  Its keys are
us, ca, gb, au, nz, note, level. -/
structure QuizQuestion where
  us : String
  ca : String
  gb : String
  au : String
  nz : String
  note : String
  level : Nat
deriving DecidableEq

/-- Placeholder question. -/
def defaultQuestion : QuizQuestion :=
  { us := "", ca := "", gb := "", au := "", nz := "", note := "", level := 0 }

/-- The quiz-question dict built from one selected word:
note defaults to "" via word.get("note", ""). -/
def questionOfSelected (w : SelectedWord) : QuizQuestion :=
  { us := w.variant.us, ca := w.variant.ca, gb := w.variant.gb,
    au := w.variant.au, nz := w.variant.nz,
    note := w.variant.note.getD "",
    level := w.level }

/-- generate_quiz_data of main.py. -/
def generate_quiz_data (choice : Nat → Nat) : List QuizQuestion :=
  (select_words choice).map questionOfSelected

/-- One element of the request's `answers` list.  Each field is optional
because the JSON object may omit it; the source reads `wordIndex` with
mandatory lookup and the others with .get defaults. -/
structure AnswerData where
  wordIndex : Option Int := none
  isLevel1 : Option Bool := none
  country : Option String := none
  answer : Option String := none
deriving DecidableEq

/-- The Python exceptions that can escape the grading loop (aborting the
whole request before anything is persisted). -/
inductive PyError where
  | keyError
  | indexError
  | attributeError
deriving DecidableEq

/-- The per-question result dict built by check_answers.  `country` is only
set on the known-country branch; `correctAnswer` stays None on skips. -/
structure GradedResult where
  wordIndex : Int
  isLevel1 : Bool
  correct : Bool
  correctAnswer : Option String
  userAnswer : String
  country : Option String := none
deriving DecidableEq

/-- The keys of the quiz-question dict: `country in word` in the source
tests membership among exactly these. -/
def questionKeys : List String := ["us", "ca", "gb", "au", "nz", "note", "level"]

/-- word[c] for the string-valued keys of the quiz-question dict; `none` for
"level" (whose value is an int, so calling .lower() on it raises) and for
keys not present. -/
def questionLookup (w : QuizQuestion) (c : String) : Option String :=
  if c = "us" then some w.us
  else if c = "ca" then some w.ca
  else if c = "gb" then some w.gb
  else if c = "au" then some w.au
  else if c = "nz" then some w.nz
  else if c = "note" then some w.note
  else none

/-- One iteration of the grading loop of check_answers: returns the result
dict together with the increments applied to correct_count and total_count,
or the Python exception that aborts the request.  Mirrors lines 223-257 of
main.py: missing "wordIndex" raises KeyError; quiz_data[word_index] uses
Python indexing and raises IndexError when invalid; a falsy or unknown
country skips; country "level" reaches correct_answer.lower() on an int and
raises AttributeError. -/
def gradeAnswer (quiz_data : List QuizQuestion) (a : AnswerData) :
    Except PyError (GradedResult × Nat × Nat) :=
  match a.wordIndex with
  | none => .error .keyError
  | some word_index =>
    let is_level1 := a.isLevel1.getD false
    let user_answer := pyLower (pyStrip (a.answer.getD ""))
    match pyGet quiz_data word_index with
    | none => .error .indexError
    | some word =>
      let base : GradedResult :=
        { wordIndex := word_index, isLevel1 := is_level1, correct := false,
          correctAnswer := none, userAnswer := pyStrip (a.answer.getD "") }
      if is_level1 then
        let correct_answer := word.ca
        .ok ({ base with
               correctAnswer := some correct_answer,
               correct := user_answer == pyLower correct_answer },
             if user_answer == pyLower correct_answer then 1 else 0, 1)
      else
        match a.country with
        | none => .ok (base, 0, 0)
        | some c =>
          if c = "" then .ok (base, 0, 0)
          else if c ∈ questionKeys then
            match questionLookup word c with
            | some correct_answer =>
              .ok ({ base with
                     correctAnswer := some correct_answer,
                     country := some c,
                     correct := user_answer == pyLower correct_answer },
                   if user_answer == pyLower correct_answer then 1 else 0, 1)
            | none => .error .attributeError
          else .ok (base, 0, 0)

/-- The grading loop of check_answers: results in submission order, with the
running correct_count and total_count; the first exception aborts. -/
def gradeLoop (quiz_data : List QuizQuestion) :
    List AnswerData → Except PyError (List GradedResult × Nat × Nat)
  | [] => .ok ([], 0, 0)
  | a :: rest =>
    match gradeAnswer quiz_data a with
    | .error e => .error e
    | .ok (r, ci, ti) =>
      match gradeLoop quiz_data rest with
      | .error e => .error e
      | .ok (rs, cc, tc) => .ok (r :: rs, ci + cc, ti + tc)

/-- Line 261 of main.py:
percentage = round((correct_count / total_count * 100)) if total_count > 0 else 0. -/
def percentage_of (correct_count total_count : Nat) : ℤ :=
  if 0 < total_count then
    pyRound ((correct_count : ℚ) / (total_count : ℚ) * 100)
  else 0

/-- A row of the quiz_attempts table. -/
structure AttemptRow where
  id : Nat
  ip_address : String
  timestamp : String
  final_score : ℤ
  correct_count : Nat
  total_count : Nat
deriving DecidableEq

/-- A row of the quiz_answers table (its own autoincrement id omitted). -/
structure AnswerRow where
  attempt_id : Nat
  word_index : Int
  is_level1 : Nat
  country : Option String
  user_answer : String
  correct_answer : Option String
  is_correct : Nat
deriving DecidableEq

/-- The two persisted tables. -/
structure Database where
  attempts : List AttemptRow
  answers : List AnswerRow
deriving DecidableEq

/-- The quiz_attempts row inserted by check_answers. -/
def attemptRowOf (aid : Nat) (ip ts : String) (p : ℤ) (cc tc : Nat) : AttemptRow :=
  { id := aid, ip_address := ip, timestamp := ts, final_score := p,
    correct_count := cc, total_count := tc }

/-- The quiz_answers row inserted for one graded result (lines 277-290). -/
def answerRowOf (aid : Nat) (r : GradedResult) : AnswerRow :=
  { attempt_id := aid, word_index := r.wordIndex,
    is_level1 := if r.isLevel1 then 1 else 0,
    country := r.country,
    user_answer := r.userAnswer,
    correct_answer := r.correctAnswer,
    is_correct := if r.correct then 1 else 0 }

/-- An INSERT issued by the save block. -/
inductive SqlOp where
  | insertAttempt (r : AttemptRow)
  | insertAnswer (r : AnswerRow)
deriving DecidableEq

/-- Effect of one INSERT on the two tables. -/
def applyOp (db : Database) : SqlOp → Database
  | .insertAttempt r => { db with attempts := db.attempts ++ [r] }
  | .insertAnswer r => { db with answers := db.answers ++ [r] }

/-- Effect of a sequence of INSERTs. -/
def applyOps (db : Database) (ops : List SqlOp) : Database :=
  ops.foldl applyOp db

/-- The INSERTs issued inside the save block of check_answers, in source
order: one attempt row, then one answer row per graded result.  They all run
on one connection and are committed by the single conn.commit() at the end,
so they form one transaction. -/
def save_transaction (ip ts : String) (p : ℤ) (cc tc : Nat) (aid : Nat)
    (results : List GradedResult) : List SqlOp :=
  SqlOp.insertAttempt (attemptRowOf aid ip ts p cc tc)
    :: results.map (fun r => SqlOp.insertAnswer (answerRowOf aid r))

/-- The database states visible to a concurrent reader: the state before the
save and the state after each committed transaction; uncommitted prefixes
inside a transaction are never visible. -/
def observableStates (db : Database) : List (List SqlOp) → List Database
  | [] => [db]
  | tx :: rest => db :: observableStates (applyOps db tx) rest

/-- The committed effect of the save block: the single transaction applied,
with the attempt id assigned by the store (fresh, modelled as the row
count + 1 of the append-only attempts table). -/
def save_attempt (db : Database) (ip ts : String) (p : ℤ) (cc tc : Nat)
    (results : List GradedResult) : Database :=
  applyOps db (save_transaction ip ts p cc tc (db.attempts.length + 1) results)

/-- The dict returned by get_statistics. -/
structure Stats where
  total_attempts : Nat
  average_score : ℤ
  perfect_scores : Nat
deriving DecidableEq

/-- get_statistics of main.py, reading the quiz_attempts table: COUNT(*),
AVG(final_score) (NULL on an empty table, and `round(x) if x else 0` also
maps a 0.0 average to 0), and COUNT of final_score = 100. -/
def get_statistics (attempts : List AttemptRow) : Stats :=
  let avg_result : Option ℚ :=
    if attempts.length = 0 then none
    else some ((attempts.map fun r => (r.final_score : ℚ)).sum / attempts.length)
  { total_attempts := attempts.length,
    average_score :=
      match avg_result with
      | none => 0
      | some q => if q = 0 then 0 else pyRound q,
    perfect_scores := attempts.countP fun r => r.final_score == 100 }

/-- The JSON body returned by check_answers on success. -/
structure CheckResponse where
  results : List GradedResult
  correct : Nat
  total : Nat
  percentage : ℤ
  statistics : Stats
deriving DecidableEq

/-- check_answers of main.py, from the grading loop to the response: grade
all submissions (any exception aborts the request before any write), compute
the percentage, commit the attempt and its answer rows in one transaction,
then read statistics back from the updated store. -/
def check_answers (db : Database) (ip ts : String)
    (quiz_data : List QuizQuestion) (answers : List AnswerData) :
    Except PyError (Database × CheckResponse) :=
  match gradeLoop quiz_data answers with
  | .error e => .error e
  | .ok (results, correct_count, total_count) =>
    let p := percentage_of correct_count total_count
    let db2 := save_attempt db ip ts p correct_count total_count results
    .ok (db2,
      { results := results, correct := correct_count, total := total_count,
        percentage := p, statistics := get_statistics db2.attempts })

instance instDecEqExcept {ε α : Type} [DecidableEq ε] [DecidableEq α] :
    DecidableEq (Except ε α) := fun x y =>
  match x, y with
  | .error a, .error b =>
    if h : a = b then isTrue (congrArg Except.error h)
    else isFalse fun he => h (Except.error.inj he)
  | .ok a, .ok b =>
    if h : a = b then isTrue (congrArg Except.ok h)
    else isFalse fun he => h (Except.ok.inj he)
  | .error _, .ok _ => isFalse fun he => Except.noConfusion he
  | .ok _, .error _ => isFalse fun he => Except.noConfusion he

/-- The quiz generated from the catalog when the first variant of every
group is chosen. -/
def sampleQuiz : List QuizQuestion := generate_quiz_data fun _ => 0

/-- The empty submission dict. -/
def defaultAnswer : AnswerData := {}

/-- Placeholder graded result. -/
def defaultResult : GradedResult :=
  { wordIndex := 0, isLevel1 := false, correct := false,
    correctAnswer := none, userAnswer := "" }

/-- Placeholder selected word. -/
def defaultSelected : SelectedWord :=
  { variant := defaultVariant, groupIndex := 0, level := 0 }

/-- The choice function that always picks the first variant of a group. -/
def choiceZero : Nat → Nat := fun _ => 0

/-- A non-level-1 submission whose country is the question's "note" key. -/
def noteAnswer : AnswerData :=
  { wordIndex := some 6, isLevel1 := some false, country := some "note",
    answer := some " Computer PROGRAM " }

/-- A level-1 submission with an incorrect answer. -/
def wrongAnswer : AnswerData :=
  { wordIndex := some 0, isLevel1 := some true, answer := some "zzz" }

/-- A submission that omits the `answer` field. -/
def missingAnswer : AnswerData :=
  { wordIndex := some 0, isLevel1 := some true }

/-- A submission that omits the `wordIndex` field. -/
def noIndexAnswer : AnswerData := { answer := some "program" }

/-- A submission whose wordIndex is negative but within Python range. -/
def negIndexAnswer : AnswerData :=
  { wordIndex := some (-1), isLevel1 := some true, answer := some "program" }

/-- A submission whose wordIndex is past the end of the quiz. -/
def bigIndexAnswer : AnswerData :=
  { wordIndex := some 100, isLevel1 := some true, answer := some "program" }

/-- A non-level-1 submission for country gb, padded and case-varied. -/
def gbAnswer : AnswerData :=
  { wordIndex := some 4, isLevel1 := some false, country := some "gb",
    answer := some " TYRE " }

/-- A level-1 submission, padded and case-varied. -/
def level1Answer : AnswerData :=
  { wordIndex := some 1, isLevel1 := some true, answer := some " DeFence " }

/-- A non-level-1 submission without a country (skipped by the grader). -/
def skipAnswer : AnswerData :=
  { wordIndex := some 4, isLevel1 := some false, answer := some "tyre" }

/-- A small batch of submissions used by concrete instantiations. -/
def sampleAnswers : List AnswerData := [gbAnswer, skipAnswer]

/-- The empty database. -/
def emptyDb : Database := { attempts := [], answers := [] }

/-- A one-element results list used by concrete instantiations. -/
def sampleResults : List GradedResult := [defaultResult]

/-- The graded result of gbAnswer against sampleQuiz. -/
def gbResult : GradedResult :=
  { wordIndex := 4, isLevel1 := false, correct := true,
    correctAnswer := some "tyre", userAnswer := "TYRE", country := some "gb" }

/-- The graded result of skipAnswer against sampleQuiz. -/
def skipResult : GradedResult :=
  { wordIndex := 4, isLevel1 := false, correct := false,
    correctAnswer := none, userAnswer := "tyre", country := none }

/-- The graded results of sampleAnswers against sampleQuiz. -/
def sampleGraded : List GradedResult := [gbResult, skipResult]

theorem pyRound_nonneg {q : ℚ} (h : 0 ≤ q) : 0 ≤ pyRound q := by
  have hf : (0 : ℤ) ≤ Int.floor q := Int.floor_nonneg.mpr h
  unfold pyRound
  dsimp only
  split
  · exact hf
  · split
    · omega
    · split
      · exact hf
      · omega

theorem pyRound_le_int {q : ℚ} {n : ℤ} (h : q ≤ (n : ℚ)) : pyRound q ≤ n := by
  have hf : Int.floor q ≤ n := by
    have := Int.floor_le_floor h
    simpa using this
  unfold pyRound
  dsimp only
  split
  · exact hf
  · rename_i h1
    push_neg at h1
    have hlt : Int.floor q < n := by
      have hq : (Int.floor q : ℚ) + 1/2 ≤ q := by linarith
      have : (Int.floor q : ℚ) < (n : ℚ) := by linarith
      exact_mod_cast this
    split
    · omega
    · split
      · exact hf
      · omega

theorem gradeAnswer_ok_inv {qd : List QuizQuestion} {a : AnswerData}
    {r : GradedResult} {ci ti : Nat}
    (h : gradeAnswer qd a = .ok (r, ci, ti)) :
    ∃ i w, a.wordIndex = some i ∧ pyGet qd i = some w ∧
      r.wordIndex = i ∧ r.isLevel1 = a.isLevel1.getD false ∧
      r.userAnswer = pyStrip (a.answer.getD "") ∧
      ci = (if r.correct then 1 else 0) ∧
      ti = (if r.correctAnswer.isSome then 1 else 0) ∧
      (r.correct = true → r.correctAnswer.isSome = true) := by
  cases haw : a.wordIndex with
  | none => rw [gradeAnswer, haw] at h; exact Except.noConfusion h
  | some i =>
    cases hq : pyGet qd i with
    | none =>
      rw [gradeAnswer, haw] at h
      simp only [hq] at h
      exact Except.noConfusion h
    | some w =>
      refine ⟨i, w, rfl, hq, ?_⟩
      rw [gradeAnswer, haw] at h
      simp only [hq] at h
      by_cases hl : a.isLevel1.getD false
      · rw [if_pos hl] at h
        simp only [Except.ok.injEq, Prod.mk.injEq] at h
        obtain ⟨hr, hci, hti⟩ := h
        subst hr
        refine ⟨rfl, rfl, rfl, ?_, ?_, ?_⟩ <;> simp [← hci, ← hti]
      · rw [if_neg hl] at h
        cases hc : a.country with
        | none =>
          simp only [hc, Except.ok.injEq, Prod.mk.injEq] at h
          obtain ⟨hr, hci, hti⟩ := h
          subst hr
          refine ⟨rfl, rfl, rfl, ?_, ?_, ?_⟩ <;> simp [← hci, ← hti]
        | some c =>
          simp only [hc] at h
          by_cases hce : c = ""
          · rw [if_pos hce] at h
            simp only [Except.ok.injEq, Prod.mk.injEq] at h
            obtain ⟨hr, hci, hti⟩ := h
            subst hr
            refine ⟨rfl, rfl, rfl, ?_, ?_, ?_⟩ <;> simp [← hci, ← hti]
          · rw [if_neg hce] at h
            by_cases hck : c ∈ questionKeys
            · rw [if_pos hck] at h
              cases hql : questionLookup w c with
              | none =>
                simp only [hql] at h
                exact Except.noConfusion h
              | some s =>
                simp only [hql, Except.ok.injEq, Prod.mk.injEq] at h
                obtain ⟨hr, hci, hti⟩ := h
                subst hr
                refine ⟨rfl, rfl, rfl, ?_, ?_, ?_⟩ <;> simp [← hci, ← hti]
            · rw [if_neg hck] at h
              simp only [Except.ok.injEq, Prod.mk.injEq] at h
              obtain ⟨hr, hci, hti⟩ := h
              subst hr
              refine ⟨rfl, rfl, rfl, ?_, ?_, ?_⟩ <;> simp [← hci, ← hti]

theorem gradeAnswer_missing_wordIndex {qd : List QuizQuestion} {a : AnswerData}
    (haw : a.wordIndex = none) : gradeAnswer qd a = .error .keyError := by
  rw [gradeAnswer, haw]

theorem gradeAnswer_bad_index {qd : List QuizQuestion} {a : AnswerData} {i : Int}
    (haw : a.wordIndex = some i) (hq : pyGet qd i = none) :
    gradeAnswer qd a = .error .indexError := by
  rw [gradeAnswer, haw]
  simp only [hq]

theorem gradeAnswer_level1_eq {qd : List QuizQuestion} {a : AnswerData}
    {i : Int} {w : QuizQuestion}
    (haw : a.wordIndex = some i) (hl : a.isLevel1.getD false = true)
    (hq : pyGet qd i = some w) :
    gradeAnswer qd a =
      .ok ({ wordIndex := i, isLevel1 := true,
             correct := pyLower (pyStrip (a.answer.getD "")) == pyLower w.ca,
             correctAnswer := some w.ca,
             userAnswer := pyStrip (a.answer.getD ""), country := none },
           if pyLower (pyStrip (a.answer.getD "")) == pyLower w.ca then 1 else 0,
           1) := by
  rw [gradeAnswer, haw]
  simp only [hq, hl, if_pos]

theorem gradeAnswer_skip_eq {qd : List QuizQuestion} {a : AnswerData}
    {i : Int} {w : QuizQuestion}
    (haw : a.wordIndex = some i) (hl : a.isLevel1.getD false = false)
    (hq : pyGet qd i = some w)
    (hc : a.country = none ∨ a.country = some "" ∨
          ∃ c, a.country = some c ∧ c ∉ questionKeys) :
    gradeAnswer qd a =
      .ok ({ wordIndex := i, isLevel1 := false, correct := false,
             correctAnswer := none,
             userAnswer := pyStrip (a.answer.getD ""), country := none },
           0, 0) := by
  rw [gradeAnswer, haw]
  simp only [hq, hl, Bool.false_eq_true, if_false]
  rcases hc with hc | hc | ⟨c, hc, hck⟩
  · simp only [hc]
  · simp [hc]
  · by_cases hce : c = ""
    · simp [hc, hce]
    · simp only [hc, if_neg hce, if_neg hck]

theorem gradeAnswer_known_country_eq {qd : List QuizQuestion} {a : AnswerData}
    {i : Int} {w : QuizQuestion} {c s : String}
    (haw : a.wordIndex = some i) (hl : a.isLevel1.getD false = false)
    (hq : pyGet qd i = some w) (hc : a.country = some c)
    (hck : c ∈ questionKeys) (hql : questionLookup w c = some s) :
    gradeAnswer qd a =
      .ok ({ wordIndex := i, isLevel1 := false,
             correct := pyLower (pyStrip (a.answer.getD "")) == pyLower s,
             correctAnswer := some s,
             userAnswer := pyStrip (a.answer.getD ""), country := some c },
           if pyLower (pyStrip (a.answer.getD "")) == pyLower s then 1 else 0,
           1) := by
  have hce : c ≠ "" := by
    simp only [questionKeys, List.mem_cons, List.not_mem_nil, or_false] at hck
    rcases hck with rfl | rfl | rfl | rfl | rfl | rfl | rfl <;> decide
  rw [gradeAnswer, haw]
  simp only [hq, hl, Bool.false_eq_true, if_false, hc, if_neg hce, if_pos hck, hql]

theorem gradeAnswer_level_err {qd : List QuizQuestion} {a : AnswerData}
    {i : Int} {w : QuizQuestion}
    (haw : a.wordIndex = some i) (hl : a.isLevel1.getD false = false)
    (hq : pyGet qd i = some w) (hc : a.country = some "level") :
    gradeAnswer qd a = .error .attributeError := by
  rw [gradeAnswer, haw]
  have hck : ("level" : String) ∈ questionKeys := by decide
  have hql : questionLookup w "level" = none := by
    rw [questionLookup]
    simp
  simp only [hq, hl, Bool.false_eq_true, if_false, hc,
    if_neg (by decide : ¬("level" : String) = ""), if_pos hck, hql]

theorem gradeAnswer_answer_none {qd : List QuizQuestion} {a : AnswerData}
    (ha : a.answer = none) :
    gradeAnswer qd a = gradeAnswer qd { a with answer := some "" } := by
  rw [gradeAnswer, gradeAnswer]
  simp [ha]

theorem pyGet_out_of_range {α : Type} {l : List α} {i : Int}
    (h : (l.length : Int) ≤ i ∨ i + l.length < 0) : pyGet l i = none := by
  rcases h with h | h
  · have h0 : 0 ≤ i := le_trans (by positivity) h
    have hn : l.length ≤ i.toNat := by omega
    rw [pyGet, if_pos h0]
    exact List.get?_eq_none.mpr hn
  · have h0 : ¬0 ≤ i := by omega
    have h1 : ¬0 ≤ i + l.length := by omega
    rw [pyGet, if_neg h0, if_neg h1]

theorem pyGet_neg {α : Type} {l : List α} {i : Int}
    (hn : i < 0) (hge : 0 ≤ i + l.length) :
    pyGet l i = l.get? (i + l.length).toNat := by
  rw [pyGet, if_neg (by omega), if_pos hge]

theorem gradeLoop_cons_ok {qd : List QuizQuestion} {a : AnswerData}
    {as : List AnswerData} {rs : List GradedResult} {cc tc : Nat}
    (h : gradeLoop qd (a :: as) = .ok (rs, cc, tc)) :
    ∃ r ci ti rs' cc' tc', gradeAnswer qd a = .ok (r, ci, ti) ∧
      gradeLoop qd as = .ok (rs', cc', tc') ∧
      rs = r :: rs' ∧ cc = ci + cc' ∧ tc = ti + tc' := by
  rw [gradeLoop] at h
  cases hga : gradeAnswer qd a with
  | error e => rw [hga] at h; exact Except.noConfusion h
  | ok v =>
    obtain ⟨r, ci, ti⟩ := v
    rw [hga] at h
    cases hgl : gradeLoop qd as with
    | error e => rw [hgl] at h; exact Except.noConfusion h
    | ok v' =>
      obtain ⟨rs', cc', tc'⟩ := v'
      rw [hgl] at h
      simp only [Except.ok.injEq, Prod.mk.injEq] at h
      exact ⟨r, ci, ti, rs', cc', tc', rfl, rfl, h.1.symm, h.2.1.symm, h.2.2.symm⟩

theorem gradeLoop_ok_counts {qd : List QuizQuestion} {as : List AnswerData}
    {rs : List GradedResult} {cc tc : Nat}
    (h : gradeLoop qd as = .ok (rs, cc, tc)) :
    rs.length = as.length ∧ cc ≤ tc ∧ tc ≤ as.length := by
  induction as generalizing rs cc tc with
  | nil =>
    rw [gradeLoop] at h
    simp only [Except.ok.injEq, Prod.mk.injEq] at h
    obtain ⟨h1, h2, h3⟩ := h
    subst h1; subst h2; subst h3
    exact ⟨rfl, le_refl _, Nat.le_refl _⟩
  | cons a as ih =>
    obtain ⟨r, ci, ti, rs', cc', tc', hga, hgl, hrs, hcc, htc⟩ := gradeLoop_cons_ok h
    obtain ⟨hlen, hle, hbound⟩ := ih hgl
    obtain ⟨i, w, _, _, _, _, _, hci, hti, himp⟩ := gradeAnswer_ok_inv hga
    subst hrs; subst hcc; subst htc
    refine ⟨by simp [hlen], ?_, ?_⟩
    · have : ci ≤ ti := by
        by_cases hcor : r.correct
        · have h2 := himp hcor
          simp [hci, hti, hcor, h2]
        · simp [hci, hcor]
      omega
    · have : ti ≤ 1 := by
        rw [hti]
        split <;> omega
      simp only [List.length_cons]
      omega

theorem gradeLoop_ok_get {qd : List QuizQuestion} {as : List AnswerData}
    {rs : List GradedResult} {cc tc : Nat}
    (h : gradeLoop qd as = .ok (rs, cc, tc)) :
    ∀ j, j < as.length →
      ∃ ci ti, gradeAnswer qd (as.getD j defaultAnswer) =
        .ok (rs.getD j defaultResult, ci, ti) := by
  induction as generalizing rs cc tc with
  | nil => intro j hj; exact absurd hj (by simp)
  | cons a as ih =>
    obtain ⟨r, ci, ti, rs', cc', tc', hga, hgl, hrs, _, _⟩ := gradeLoop_cons_ok h
    subst hrs
    intro j hj
    cases j with
    | zero => exact ⟨ci, ti, hga⟩
    | succ j' =>
      simp only [List.length_cons, Nat.succ_lt_succ_iff] at hj
      simpa using ih hgl j' hj

theorem gradeLoop_append_ok {qd : List QuizQuestion} {pre suf : List AnswerData}
    {rs : List GradedResult} {cc tc : Nat}
    (h : gradeLoop qd (pre ++ suf) = .ok (rs, cc, tc)) :
    ∃ rs1 cc1 tc1 rs2 cc2 tc2, gradeLoop qd pre = .ok (rs1, cc1, tc1) ∧
      gradeLoop qd suf = .ok (rs2, cc2, tc2) ∧
      rs = rs1 ++ rs2 ∧ cc = cc1 + cc2 ∧ tc = tc1 + tc2 := by
  induction pre generalizing rs cc tc with
  | nil =>
    exact ⟨[], 0, 0, rs, cc, tc, rfl, by simpa using h, rfl, by omega, by omega⟩
  | cons a pre ih =>
    rw [List.cons_append] at h
    obtain ⟨r, ci, ti, rs', cc', tc', hga, hgl, hrs, hcc, htc⟩ := gradeLoop_cons_ok h
    obtain ⟨rs1, cc1, tc1, rs2, cc2, tc2, hp, hs, hr2, hc2, ht2⟩ := ih hgl
    refine ⟨r :: rs1, ci + cc1, ti + tc1, rs2, cc2, tc2, ?_, hs, ?_, ?_, ?_⟩
    · rw [gradeLoop, hga, hp]
    · rw [hrs, hr2]; simp
    · omega
    · omega

theorem gradeLoop_mem_keyError {qd : List QuizQuestion} {as : List AnswerData}
    (h : ∃ x ∈ as, x.wordIndex = none) : ∃ e, gradeLoop qd as = .error e := by
  induction as with
  | nil => rcases h with ⟨x, hx, _⟩; exact absurd hx (by simp)
  | cons a as ih =>
    rcases h with ⟨x, hx, hnone⟩
    rcases List.mem_cons.mp hx with rfl | hmem
    · exact ⟨.keyError, by rw [gradeLoop, gradeAnswer_missing_wordIndex hnone]⟩
    · cases hga : gradeAnswer qd a with
      | error e => exact ⟨e, by rw [gradeLoop, hga]⟩
      | ok v =>
        obtain ⟨r, ci, ti⟩ := v
        obtain ⟨e, he⟩ := ih ⟨x, hmem, hnone⟩
        exact ⟨e, by rw [gradeLoop, hga, he]⟩

theorem check_answers_error {db : Database} {ip ts : String}
    {qd : List QuizQuestion} {as : List AnswerData} {e : PyError}
    (h : gradeLoop qd as = .error e) :
    check_answers db ip ts qd as = .error e := by
  rw [check_answers, h]

theorem check_answers_ok_inv {db : Database} {ip ts : String}
    {qd : List QuizQuestion} {as : List AnswerData}
    {db2 : Database} {resp : CheckResponse}
    (h : check_answers db ip ts qd as = .ok (db2, resp)) :
    ∃ rs cc tc, gradeLoop qd as = .ok (rs, cc, tc) ∧
      resp.results = rs ∧ resp.correct = cc ∧ resp.total = tc ∧
      resp.percentage = percentage_of cc tc ∧
      db2 = save_attempt db ip ts (percentage_of cc tc) cc tc rs := by
  rw [check_answers] at h
  cases hgl : gradeLoop qd as with
  | error e => rw [hgl] at h; exact Except.noConfusion h
  | ok v =>
    obtain ⟨rs, cc, tc⟩ := v
    rw [hgl] at h
    simp only [Except.ok.injEq, Prod.mk.injEq] at h
    obtain ⟨hdb, hresp⟩ := h
    subst hdb
    refine ⟨rs, cc, tc, rfl, ?_, ?_, ?_, ?_, rfl⟩ <;> rw [← hresp]

theorem percentage_of_nonneg (cc tc : Nat) : 0 ≤ percentage_of cc tc := by
  rw [percentage_of]
  split
  · exact pyRound_nonneg (by positivity)
  · exact le_refl 0

theorem percentage_of_le_100 {cc tc : Nat} (h : cc ≤ tc) :
    percentage_of cc tc ≤ 100 := by
  rw [percentage_of]
  split
  · rename_i htc
    apply pyRound_le_int
    have htq : (0 : ℚ) < (tc : ℚ) := by exact_mod_cast htc
    have hdiv : (cc : ℚ) / (tc : ℚ) ≤ 1 := by
      rw [div_le_one htq]
      exact_mod_cast h
    push_cast
    nlinarith
  · norm_num

theorem percentage_of_zero (cc : Nat) : percentage_of cc 0 = 0 := rfl

theorem applyOps_insertAnswers_attempts (db : Database) (aid : Nat)
    (results : List GradedResult) :
    (applyOps db (results.map fun r => SqlOp.insertAnswer (answerRowOf aid r))).attempts
      = db.attempts := by
  induction results generalizing db with
  | nil => rfl
  | cons r rest ih =>
    simpa [applyOps, applyOp] using
      ih { db with answers := db.answers ++ [answerRowOf aid r] }

theorem applyOps_insertAnswers_answers (db : Database) (aid : Nat)
    (results : List GradedResult) :
    (applyOps db (results.map fun r => SqlOp.insertAnswer (answerRowOf aid r))).answers
      = db.answers ++ results.map (answerRowOf aid) := by
  induction results generalizing db with
  | nil => simp [applyOps]
  | cons r rest ih =>
    have := ih { db with answers := db.answers ++ [answerRowOf aid r] }
    simpa [applyOps, applyOp] using this

theorem save_attempt_attempts (db : Database) (ip ts : String) (p : ℤ)
    (cc tc : Nat) (results : List GradedResult) :
    (save_attempt db ip ts p cc tc results).attempts =
      db.attempts ++ [attemptRowOf (db.attempts.length + 1) ip ts p cc tc] := by
  rw [save_attempt, save_transaction, applyOps, List.foldl_cons]
  rw [← applyOps]
  rw [applyOps_insertAnswers_attempts]
  rfl

theorem save_attempt_answers (db : Database) (ip ts : String) (p : ℤ)
    (cc tc : Nat) (results : List GradedResult) :
    (save_attempt db ip ts p cc tc results).answers =
      db.answers ++ results.map (answerRowOf (db.attempts.length + 1)) := by
  rw [save_attempt, save_transaction, applyOps, List.foldl_cons]
  rw [← applyOps]
  rw [applyOps_insertAnswers_answers]
  rfl

/-- C9: every WordVariant in the word catalog has all five country spellings
populated (non-empty), and within every level-1 group the ca, gb, au and nz
spellings of each variant are identical to one another. -/
theorem C9_catalog_invariant : ∀ g ∈ WORD_GROUPS, ∀ v ∈ g.words,
    (v.us ≠ "" ∧ v.ca ≠ "" ∧ v.gb ≠ "" ∧ v.au ≠ "" ∧ v.nz ≠ "") ∧
    (g.level = 1 → v.ca = v.gb ∧ v.gb = v.au ∧ v.au = v.nz) := by
  decide

theorem C9_catalog_invariant_witness :
    ((((WORD_GROUPS.getD 0 defaultGroup).words.getD 0 defaultVariant).us ≠ "" ∧
      ((WORD_GROUPS.getD 0 defaultGroup).words.getD 0 defaultVariant).ca ≠ "" ∧
      ((WORD_GROUPS.getD 0 defaultGroup).words.getD 0 defaultVariant).gb ≠ "" ∧
      ((WORD_GROUPS.getD 0 defaultGroup).words.getD 0 defaultVariant).au ≠ "" ∧
      ((WORD_GROUPS.getD 0 defaultGroup).words.getD 0 defaultVariant).nz ≠ "") ∧
     ((WORD_GROUPS.getD 0 defaultGroup).level = 1 →
      ((WORD_GROUPS.getD 0 defaultGroup).words.getD 0 defaultVariant).ca =
        ((WORD_GROUPS.getD 0 defaultGroup).words.getD 0 defaultVariant).gb ∧
      ((WORD_GROUPS.getD 0 defaultGroup).words.getD 0 defaultVariant).gb =
        ((WORD_GROUPS.getD 0 defaultGroup).words.getD 0 defaultVariant).au ∧
      ((WORD_GROUPS.getD 0 defaultGroup).words.getD 0 defaultVariant).au =
        ((WORD_GROUPS.getD 0 defaultGroup).words.getD 0 defaultVariant).nz)) :=
  C9_catalog_invariant (WORD_GROUPS.getD 0 defaultGroup) (by decide)
    ((WORD_GROUPS.getD 0 defaultGroup).words.getD 0 defaultVariant) (by decide)

theorem select_words_getq (choice : Nat → Nat) {gi : Nat}
    (hgi : gi < WORD_GROUPS.length) :
    (select_words choice).get? gi =
      some { variant := (WORD_GROUPS.getD gi defaultGroup).words.getD (choice gi) defaultVariant,
             groupIndex := gi,
             level := (WORD_GROUPS.getD gi defaultGroup).level } := by
  have hg : WORD_GROUPS.get? gi = some (WORD_GROUPS.getD gi defaultGroup) := by
    rw [List.get?_eq_getElem?, List.getElem?_eq_getElem hgi,
      List.getD_eq_getElem _ _ hgi]
  rw [select_words, List.get?_map, List.get?_enum, hg]
  rfl

theorem generate_quiz_data_getq (choice : Nat → Nat) {gi : Nat}
    (hgi : gi < WORD_GROUPS.length) :
    (generate_quiz_data choice).get? gi =
      some (questionOfSelected
        { variant := (WORD_GROUPS.getD gi defaultGroup).words.getD (choice gi) defaultVariant,
          groupIndex := gi,
          level := (WORD_GROUPS.getD gi defaultGroup).level }) := by
  rw [generate_quiz_data, List.get?_map, select_words_getq choice hgi]
  rfl

/-- C5: generate_quiz_data returns exactly one question per word group, in
catalog order, each question carrying its group's level and built from a
variant of that group (all five country spellings plus note), with the
question's position in the sequence equal to the group's index. -/
theorem C5_generate_quiz (choice : Nat → Nat)
    (hc : ∀ gi, gi < WORD_GROUPS.length →
      choice gi < ((WORD_GROUPS.getD gi defaultGroup).words).length) :
    (generate_quiz_data choice).length = WORD_GROUPS.length ∧
    (select_words choice).length = WORD_GROUPS.length ∧
    ∀ gi, gi < WORD_GROUPS.length →
      ((select_words choice).getD gi defaultSelected).groupIndex = gi ∧
      ((generate_quiz_data choice).getD gi defaultQuestion).level =
        (WORD_GROUPS.getD gi defaultGroup).level ∧
      (WORD_GROUPS.getD gi defaultGroup).words.getD (choice gi) defaultVariant ∈
        (WORD_GROUPS.getD gi defaultGroup).words ∧
      (generate_quiz_data choice).getD gi defaultQuestion =
        questionOfSelected
          { variant := (WORD_GROUPS.getD gi defaultGroup).words.getD (choice gi) defaultVariant,
            groupIndex := gi,
            level := (WORD_GROUPS.getD gi defaultGroup).level } := by
  refine ⟨?_, ?_, ?_⟩
  · rw [generate_quiz_data, List.length_map, select_words, List.length_map,
      List.enum_length]
  · rw [select_words, List.length_map, List.enum_length]
  · intro gi hgi
    have hsel := select_words_getq choice hgi
    have hgen := generate_quiz_data_getq choice hgi
    refine ⟨?_, ?_, ?_, ?_⟩
    · rw [List.getD_eq_getD_get?, hsel, Option.getD_some]
    · rw [List.getD_eq_getD_get?, hgen, Option.getD_some]
      rfl
    · rw [List.getD_eq_getElem _ _ (hc gi hgi)]
      exact List.getElem_mem _
    · rw [List.getD_eq_getD_get?, hgen, Option.getD_some]

theorem C5_generate_quiz_witness :
    (generate_quiz_data choiceZero).length = WORD_GROUPS.length ∧
    ((select_words choiceZero).getD 0 defaultSelected).groupIndex = 0 ∧
    ((generate_quiz_data choiceZero).getD 0 defaultQuestion).level =
      (WORD_GROUPS.getD 0 defaultGroup).level :=
  ⟨(C5_generate_quiz choiceZero (by decide)).1,
   ((C5_generate_quiz choiceZero (by decide)).2.2 0 (by decide)).1,
   ((C5_generate_quiz choiceZero (by decide)).2.2 0 (by decide)).2.1⟩

/-- C4: for a level-1 submission with a valid word index, the correct answer
used for grading is the question's ca field, the comparison is
case-insensitive on the trimmed user answer, total_count is incremented by 1
regardless of the outcome, and the US spelling (when it differs
case-insensitively from the ca spelling) grades as incorrect. -/
theorem C4_level1_grading (qd : List QuizQuestion) (a : AnswerData)
    (i : Int) (w : QuizQuestion)
    (haw : a.wordIndex = some i) (hl : a.isLevel1.getD false = true)
    (hq : pyGet qd i = some w) :
    gradeAnswer qd a =
      .ok ({ wordIndex := i, isLevel1 := true,
             correct := pyLower (pyStrip (a.answer.getD "")) == pyLower w.ca,
             correctAnswer := some w.ca,
             userAnswer := pyStrip (a.answer.getD ""), country := none },
           if pyLower (pyStrip (a.answer.getD "")) == pyLower w.ca then 1 else 0,
           1) ∧
    ((pyLower (pyStrip (a.answer.getD "")) == pyLower w.ca) = true ↔
      pyLower (pyStrip (a.answer.getD "")) = pyLower w.ca) ∧
    (pyLower w.us ≠ pyLower w.ca →
      pyLower (pyStrip (a.answer.getD "")) = pyLower w.us →
      (pyLower (pyStrip (a.answer.getD "")) == pyLower w.ca) = false) := by
  refine ⟨gradeAnswer_level1_eq haw hl hq, beq_iff_eq, ?_⟩
  intro hne heq
  rw [heq]
  exact beq_eq_false_iff_ne.mpr hne

theorem C4_level1_grading_witness :
    gradeAnswer sampleQuiz level1Answer =
      .ok ({ wordIndex := 1, isLevel1 := true,
             correct := pyLower (pyStrip (level1Answer.answer.getD "")) ==
               pyLower (sampleQuiz.getD 1 defaultQuestion).ca,
             correctAnswer := some (sampleQuiz.getD 1 defaultQuestion).ca,
             userAnswer := pyStrip (level1Answer.answer.getD ""), country := none },
           if pyLower (pyStrip (level1Answer.answer.getD "")) ==
               pyLower (sampleQuiz.getD 1 defaultQuestion).ca then 1 else 0,
           1) ∧
    ((pyLower (pyStrip (level1Answer.answer.getD "")) ==
        pyLower (sampleQuiz.getD 1 defaultQuestion).ca) = true ↔
      pyLower (pyStrip (level1Answer.answer.getD "")) =
        pyLower (sampleQuiz.getD 1 defaultQuestion).ca) ∧
    (pyLower (sampleQuiz.getD 1 defaultQuestion).us ≠
        pyLower (sampleQuiz.getD 1 defaultQuestion).ca →
      pyLower (pyStrip (level1Answer.answer.getD "")) =
        pyLower (sampleQuiz.getD 1 defaultQuestion).us →
      (pyLower (pyStrip (level1Answer.answer.getD "")) ==
        pyLower (sampleQuiz.getD 1 defaultQuestion).ca) = false) :=
  C4_level1_grading sampleQuiz level1Answer 1 (sampleQuiz.getD 1 defaultQuestion)
    (by decide) (by decide) (by decide)

/-- C1 counterexample: the claim says a non-level-1 submission whose country
is not one of the five known codes (us, ca, gb, au, nz) is skipped entirely,
incrementing neither counter and carrying no correctAnswer.  But the source
tests `country in word`, and the quiz-question dict also has the keys "note"
and "level": submitting country := "note" against the group-7 question is
graded (total_count increments by 1) and its result carries
correctAnswer := the note text. -/
theorem C1_counterexample :
    gradeAnswer sampleQuiz noteAnswer =
      .ok ({ wordIndex := 6, isLevel1 := false, correct := true,
             correctAnswer := some "computer program",
             userAnswer := "Computer PROGRAM", country := some "note" },
           1, 1) ∧
    ("note" : String) ∉ (["us", "ca", "gb", "au", "nz"] : List String) := by
  constructor
  · decide
  · decide

/-- C1 amended: for a non-level-1 submission with a valid word index,
grading requires a country that is a key of the quiz-question dict.  If the
country is absent, empty, or not a key of the dict, the submission is
skipped entirely (neither counter increments and the result carries no
correctAnswer).  If it is one of the five country codes, the comparison is
case-insensitive against that country's spelling and total_count increments
by 1.  The two remaining dict keys are also accepted by the membership test:
country "note" grades against the note text (total_count increments), and
country "level" aborts the whole request with an AttributeError. -/
theorem C1_amended (qd : List QuizQuestion) (a : AnswerData)
    (i : Int) (w : QuizQuestion)
    (haw : a.wordIndex = some i) (hl : a.isLevel1.getD false = false)
    (hq : pyGet qd i = some w) :
    (a.country = none →
      gradeAnswer qd a =
        .ok ({ wordIndex := i, isLevel1 := false, correct := false,
               correctAnswer := none,
               userAnswer := pyStrip (a.answer.getD ""), country := none },
             0, 0)) ∧
    (a.country = some "" →
      gradeAnswer qd a =
        .ok ({ wordIndex := i, isLevel1 := false, correct := false,
               correctAnswer := none,
               userAnswer := pyStrip (a.answer.getD ""), country := none },
             0, 0)) ∧
    (∀ c, a.country = some c → c ∉ questionKeys →
      gradeAnswer qd a =
        .ok ({ wordIndex := i, isLevel1 := false, correct := false,
               correctAnswer := none,
               userAnswer := pyStrip (a.answer.getD ""), country := none },
             0, 0)) ∧
    (∀ c s, a.country = some c →
      c ∈ (["us", "ca", "gb", "au", "nz"] : List String) →
      questionLookup w c = some s →
      gradeAnswer qd a =
        .ok ({ wordIndex := i, isLevel1 := false,
               correct := pyLower (pyStrip (a.answer.getD "")) == pyLower s,
               correctAnswer := some s,
               userAnswer := pyStrip (a.answer.getD ""), country := some c },
             if pyLower (pyStrip (a.answer.getD "")) == pyLower s then 1 else 0,
             1)) ∧
    (a.country = some "note" →
      gradeAnswer qd a =
        .ok ({ wordIndex := i, isLevel1 := false,
               correct := pyLower (pyStrip (a.answer.getD "")) == pyLower w.note,
               correctAnswer := some w.note,
               userAnswer := pyStrip (a.answer.getD ""), country := some "note" },
             if pyLower (pyStrip (a.answer.getD "")) == pyLower w.note then 1 else 0,
             1)) ∧
    (a.country = some "level" → gradeAnswer qd a = .error .attributeError) := by
  refine ⟨?_, ?_, ?_, ?_, ?_, ?_⟩
  · intro hc
    exact gradeAnswer_skip_eq haw hl hq (Or.inl hc)
  · intro hc
    exact gradeAnswer_skip_eq haw hl hq (Or.inr (Or.inl hc))
  · intro c hc hck
    exact gradeAnswer_skip_eq haw hl hq (Or.inr (Or.inr ⟨c, hc, hck⟩))
  · intro c s hc hc5 hql
    have hck : c ∈ questionKeys := by
      simp only [List.mem_cons, List.not_mem_nil, or_false] at hc5
      rcases hc5 with rfl | rfl | rfl | rfl | rfl <;> decide
    exact gradeAnswer_known_country_eq haw hl hq hc hck hql
  · intro hc
    have hql : questionLookup w "note" = some w.note := by
      rw [questionLookup]
      simp
    exact gradeAnswer_known_country_eq haw hl hq hc (by decide) hql
  · intro hc
    exact gradeAnswer_level_err haw hl hq hc

theorem C1_amended_witness :
    gradeAnswer sampleQuiz gbAnswer =
      .ok ({ wordIndex := 4, isLevel1 := false,
             correct := pyLower (pyStrip (gbAnswer.answer.getD "")) ==
               pyLower (sampleQuiz.getD 4 defaultQuestion).gb,
             correctAnswer := some (sampleQuiz.getD 4 defaultQuestion).gb,
             userAnswer := pyStrip (gbAnswer.answer.getD ""), country := some "gb" },
           if pyLower (pyStrip (gbAnswer.answer.getD "")) ==
               pyLower (sampleQuiz.getD 4 defaultQuestion).gb then 1 else 0,
           1) ∧
    gradeAnswer sampleQuiz skipAnswer =
      .ok ({ wordIndex := 4, isLevel1 := false, correct := false,
             correctAnswer := none,
             userAnswer := pyStrip (skipAnswer.answer.getD ""), country := none },
           0, 0) :=
  ⟨((C1_amended sampleQuiz gbAnswer 4 (sampleQuiz.getD 4 defaultQuestion)
      (by decide) (by decide) (by decide)).2.2.2.1) "gb"
      (sampleQuiz.getD 4 defaultQuestion).gb (by decide) (by decide) (by decide),
   ((C1_amended sampleQuiz skipAnswer 4 (sampleQuiz.getD 4 defaultQuestion)
      (by decide) (by decide) (by decide)).1) (by decide)⟩

/-- C3 counterexample: the claim says a submission missing a required field
(answer or wordIndex), or whose wordIndex is out of range, is handled by one
consistent policy: either the whole request fails as a client error with no
grading, or the malformed entry is skipped.  The code does neither for two
of these cases: a submission with no `answer` field is graded normally
against the empty string (here total_count increments to 1 and a
correctAnswer is carried, so it is not skipped, while the request
succeeds), and a negative wordIndex (-1), out of range under the spec's
positional contract, is graded against the last question instead of being
rejected or skipped. -/
theorem C3_counterexample :
    missingAnswer.answer = none ∧
    gradeAnswer sampleQuiz missingAnswer =
      .ok ({ wordIndex := 0, isLevel1 := true, correct := false,
             correctAnswer := some "cancelled", userAnswer := "" }, 0, 1) ∧
    negIndexAnswer.wordIndex = some (-1) ∧
    gradeAnswer sampleQuiz negIndexAnswer =
      .ok ({ wordIndex := -1, isLevel1 := true, correct := true,
             correctAnswer := some "program", userAnswer := "program" },
           1, 1) := by
  exact ⟨rfl, by decide, rfl, by decide⟩

/-- C3 amended: the code's actual malformed-input behaviour is mixed.  A
submission missing `answer` is not treated as malformed at all: it is graded
as if the answer were the empty string.  A submission missing `wordIndex`
raises KeyError, and a wordIndex outside Python's index range
[-len(quizData), len(quizData)) raises IndexError; either exception aborts
the whole request (check_answers returns the error and nothing is
persisted).  A negative wordIndex inside that range is graded against the
question at position len(quizData) + wordIndex. -/
theorem C3_amended (qd : List QuizQuestion) (a : AnswerData) :
    (a.answer = none →
      gradeAnswer qd a = gradeAnswer qd { a with answer := some "" }) ∧
    (a.wordIndex = none → gradeAnswer qd a = .error .keyError) ∧
    (∀ i : Int, a.wordIndex = some i →
      ((qd.length : Int) ≤ i ∨ i + qd.length < 0) →
      gradeAnswer qd a = .error .indexError) ∧
    (∀ i : Int, a.wordIndex = some i → i < 0 → 0 ≤ i + qd.length →
      pyGet qd i = qd.get? (i + qd.length).toNat) ∧
    (∀ as : List AnswerData, (∃ x ∈ as, x.wordIndex = none) →
      ∃ e, gradeLoop qd as = .error e) ∧
    (∀ (db : Database) (ip ts : String) (as : List AnswerData) (e : PyError),
      gradeLoop qd as = .error e → check_answers db ip ts qd as = .error e) := by
  refine ⟨gradeAnswer_answer_none, gradeAnswer_missing_wordIndex, ?_, ?_, ?_, ?_⟩
  · intro i haw hor
    exact gradeAnswer_bad_index haw (pyGet_out_of_range hor)
  · intro i _ hn hge
    exact pyGet_neg hn hge
  · intro as h
    exact gradeLoop_mem_keyError h
  · intro db ip ts as e h
    exact check_answers_error h

theorem C3_amended_witness :
    gradeAnswer sampleQuiz missingAnswer =
      gradeAnswer sampleQuiz { missingAnswer with answer := some "" } ∧
    gradeAnswer sampleQuiz noIndexAnswer = .error .keyError ∧
    gradeAnswer sampleQuiz bigIndexAnswer = .error .indexError ∧
    pyGet sampleQuiz (-1) = sampleQuiz.get? ((-1) + (sampleQuiz.length : Int)).toNat ∧
    check_answers emptyDb "ip" "ts" sampleQuiz [noIndexAnswer] = .error .keyError :=
  ⟨(C3_amended sampleQuiz missingAnswer).1 (by decide),
   (C3_amended sampleQuiz noIndexAnswer).2.1 (by decide),
   (C3_amended sampleQuiz bigIndexAnswer).2.2.1 100 (by decide) (by decide),
   (C3_amended sampleQuiz negIndexAnswer).2.2.2.1 (-1) (by decide) (by decide) (by decide),
   (C3_amended sampleQuiz noIndexAnswer).2.2.2.2.2 emptyDb "ip" "ts"
     [noIndexAnswer] .keyError (by decide)⟩

/-- C2 counterexample: the claim says the percentage equals 0 exactly when
total_count equals 0.  A completed run with one graded, incorrect answer has
total_count = 1 and percentage round(0/1*100) = 0, so percentage can be 0
with a non-zero total_count. -/
theorem C2_counterexample :
    gradeLoop sampleQuiz [wrongAnswer] =
      .ok ([{ wordIndex := 0, isLevel1 := true, correct := false,
              correctAnswer := some "cancelled", userAnswer := "zzz" }],
           0, 1) ∧
    percentage_of 0 1 = 0 := by
  constructor
  · decide
  · rw [percentage_of]
    norm_num [pyRound]

/-- C2 amended: for every completed grading run the percentage equals
round(correct_count / total_count * 100) when total_count > 0 and 0
otherwise; it always lies in [0, 100]; and total_count = 0 implies
percentage = 0 (the converse fails: an all-wrong attempt also scores 0). -/
theorem C2_amended (qd : List QuizQuestion) (as : List AnswerData)
    (rs : List GradedResult) (cc tc : Nat)
    (h : gradeLoop qd as = .ok (rs, cc, tc)) :
    percentage_of cc tc =
      (if 0 < tc then pyRound ((cc : ℚ) / (tc : ℚ) * 100) else 0) ∧
    0 ≤ percentage_of cc tc ∧ percentage_of cc tc ≤ 100 ∧
    (tc = 0 → percentage_of cc tc = 0) := by
  obtain ⟨_, hle, _⟩ := gradeLoop_ok_counts h
  exact ⟨rfl, percentage_of_nonneg cc tc, percentage_of_le_100 hle,
    fun ht => ht ▸ percentage_of_zero cc⟩

theorem C2_amended_witness :
    percentage_of 1 1 =
      (if 0 < 1 then pyRound ((1 : ℚ) / (1 : ℚ) * 100) else 0) ∧
    0 ≤ percentage_of 1 1 ∧ percentage_of 1 1 ≤ 100 ∧
    ((1 : Nat) = 0 → percentage_of 1 1 = 0) :=
  C2_amended sampleQuiz sampleAnswers sampleGraded 1 1 (by decide)

/-- C10: every completed grading run yields exactly one result per
submission in submission order (result j comes from grading submission j;
skipped non-level-1 submissions appear with correct = false and no
correctAnswer), and the counters satisfy correct_count ≤ total_count ≤
number of submissions, a bound that also holds after every prefix of the
loop. -/
theorem C10_loop_invariants (qd : List QuizQuestion) (as : List AnswerData)
    (rs : List GradedResult) (cc tc : Nat)
    (h : gradeLoop qd as = .ok (rs, cc, tc)) :
    rs.length = as.length ∧
    cc ≤ tc ∧ tc ≤ as.length ∧
    (∀ j, j < as.length → ∃ ci ti,
      gradeAnswer qd (as.getD j defaultAnswer) =
        .ok (rs.getD j defaultResult, ci, ti)) ∧
    (∀ j, j < as.length →
      (as.getD j defaultAnswer).isLevel1.getD false = false →
      ((as.getD j defaultAnswer).country = none ∨
       (as.getD j defaultAnswer).country = some "" ∨
       (∃ c, (as.getD j defaultAnswer).country = some c ∧ c ∉ questionKeys)) →
      (rs.getD j defaultResult).correct = false ∧
      (rs.getD j defaultResult).correctAnswer = none) ∧
    (∀ pre suf, as = pre ++ suf →
      ∃ rs' cc' tc', gradeLoop qd pre = .ok (rs', cc', tc') ∧
        cc' ≤ tc' ∧ tc' ≤ pre.length) := by
  obtain ⟨hlen, hle, hbound⟩ := gradeLoop_ok_counts h
  refine ⟨hlen, hle, hbound, gradeLoop_ok_get h, ?_, ?_⟩
  · intro j hj hl1 hsk
    obtain ⟨ci, ti, hga⟩ := gradeLoop_ok_get h j hj
    obtain ⟨i, w, haw, hq, _⟩ := gradeAnswer_ok_inv hga
    have hskip := gradeAnswer_skip_eq haw hl1 hq hsk
    rw [hga] at hskip
    simp only [Except.ok.injEq, Prod.mk.injEq] at hskip
    obtain ⟨hr, _, _⟩ := hskip
    rw [hr]
    exact ⟨rfl, rfl⟩
  · intro pre suf hsplit
    subst hsplit
    obtain ⟨rs1, cc1, tc1, rs2, cc2, tc2, hp, _, _, _, _⟩ := gradeLoop_append_ok h
    obtain ⟨_, hle1, hb1⟩ := gradeLoop_ok_counts hp
    exact ⟨rs1, cc1, tc1, hp, hle1, hb1⟩

theorem C10_loop_invariants_witness :
    sampleGraded.length = sampleAnswers.length ∧
    (1 : Nat) ≤ 1 ∧
    (1 : Nat) ≤ sampleAnswers.length ∧
    ((sampleGraded.getD 1 defaultResult).correct = false ∧
     (sampleGraded.getD 1 defaultResult).correctAnswer = none) :=
  ⟨(C10_loop_invariants sampleQuiz sampleAnswers sampleGraded 1 1 (by decide)).1,
   (C10_loop_invariants sampleQuiz sampleAnswers sampleGraded 1 1 (by decide)).2.1,
   (C10_loop_invariants sampleQuiz sampleAnswers sampleGraded 1 1 (by decide)).2.2.1,
   (C10_loop_invariants sampleQuiz sampleAnswers sampleGraded 1 1
      (by decide)).2.2.2.2.1 1 (by decide) (by decide) (Or.inl (by decide))⟩

/-- C8: for every graded answer, the user answer carried in the result and
written to the quiz_answers row is the submitted answer with surrounding
whitespace stripped and its original letter case preserved; the case fold is
applied only inside the comparison, never to the persisted value. -/
theorem C8_user_answer (qd : List QuizQuestion) (a : AnswerData)
    (r : GradedResult) (ci ti : Nat)
    (h : gradeAnswer qd a = .ok (r, ci, ti)) :
    r.userAnswer = pyStrip (a.answer.getD "") ∧
    ∀ aid, (answerRowOf aid r).user_answer = pyStrip (a.answer.getD "") := by
  obtain ⟨i, w, _, _, _, _, hua, _⟩ := gradeAnswer_ok_inv h
  exact ⟨hua, fun aid => hua⟩

theorem C8_user_answer_witness :
    gbResult.userAnswer = pyStrip (gbAnswer.answer.getD "") ∧
    (answerRowOf 1 gbResult).user_answer = pyStrip (gbAnswer.answer.getD "") :=
  ⟨(C8_user_answer sampleQuiz gbAnswer gbResult 1 1 (by decide)).1,
   (C8_user_answer sampleQuiz gbAnswer gbResult 1 1 (by decide)).2 1⟩

theorem applyOps_save_transaction_attempts (db : Database) (ip ts : String)
    (p : ℤ) (cc tc aid : Nat) (results : List GradedResult) :
    (applyOps db (save_transaction ip ts p cc tc aid results)).attempts =
      db.attempts ++ [attemptRowOf aid ip ts p cc tc] := by
  rw [save_transaction, applyOps, List.foldl_cons, ← applyOps,
    applyOps_insertAnswers_attempts]
  rfl

theorem applyOps_save_transaction_answers (db : Database) (ip ts : String)
    (p : ℤ) (cc tc aid : Nat) (results : List GradedResult) :
    (applyOps db (save_transaction ip ts p cc tc aid results)).answers =
      db.answers ++ results.map (answerRowOf aid) := by
  rw [save_transaction, applyOps, List.foldl_cons, ← applyOps,
    applyOps_insertAnswers_answers]
  rfl

/-- C6: recording an attempt and then reading statistics increases
total_attempts by exactly 1, and increases perfect_scores by 1 precisely
when the recorded percentage is 100; the statistics are recomputed from the
whole attempts table on each call (total_attempts is its row count and
perfect_scores counts the rows with final_score = 100), and the average is 0
when there are no attempts. -/
theorem C6_statistics_round_trip (db : Database) (ip ts : String) (p : ℤ)
    (cc tc : Nat) (results : List GradedResult) :
    (get_statistics (save_attempt db ip ts p cc tc results).attempts).total_attempts =
      (get_statistics db.attempts).total_attempts + 1 ∧
    (get_statistics (save_attempt db ip ts p cc tc results).attempts).perfect_scores =
      (get_statistics db.attempts).perfect_scores + (if p = 100 then 1 else 0) ∧
    ((get_statistics (save_attempt db ip ts p cc tc results).attempts).perfect_scores =
      (get_statistics db.attempts).perfect_scores + 1 ↔ p = 100) ∧
    (get_statistics []).total_attempts = 0 ∧
    (get_statistics []).average_score = 0 ∧
    (∀ attempts : List AttemptRow,
      (get_statistics attempts).total_attempts = attempts.length ∧
      (get_statistics attempts).perfect_scores =
        attempts.countP fun r => r.final_score == 100) := by
  have hp : (get_statistics (save_attempt db ip ts p cc tc results).attempts).perfect_scores =
      (get_statistics db.attempts).perfect_scores + (if p = 100 then 1 else 0) := by
    rw [save_attempt_attempts]
    show (db.attempts ++ [attemptRowOf (db.attempts.length + 1) ip ts p cc tc]).countP _ = _
    rw [List.countP_append]
    simp [get_statistics, attemptRowOf, List.countP_cons, beq_iff_eq]
  refine ⟨?_, hp, ?_, rfl, rfl, fun attempts => ⟨rfl, rfl⟩⟩
  · rw [save_attempt_attempts]
    show (db.attempts ++ [attemptRowOf (db.attempts.length + 1) ip ts p cc tc]).length = _
    simp [get_statistics]
  · rw [hp]
    by_cases h100 : p = 100
    · simp [h100]
    · simp [h100]

/-- C7: all inserts of a recorded attempt form one transaction, so the only
states observable by a concurrent reader are the state before the save and
the state after the commit.  In every observable state (given that the new
attempt id is fresh), an answer row referencing the new attempt exists only
if the attempt row exists, and when the attempt row exists, the answer rows
referencing it are exactly the rows for all graded results — never a proper
subset. -/
theorem C7_atomic_persistence (db : Database) (ip ts : String) (p : ℤ)
    (cc tc aid : Nat) (results : List GradedResult)
    (hA : ∀ r ∈ db.attempts, r.id ≠ aid)
    (hB : ∀ x ∈ db.answers, x.attempt_id ≠ aid) :
    observableStates db [save_transaction ip ts p cc tc aid results] =
      [db, applyOps db (save_transaction ip ts p cc tc aid results)] ∧
    ∀ s ∈ observableStates db [save_transaction ip ts p cc tc aid results],
      ((∃ r ∈ s.attempts, r.id = aid) →
        s.answers.filter (fun x => x.attempt_id == aid) =
          results.map (answerRowOf aid)) ∧
      ((∃ x ∈ s.answers, x.attempt_id = aid) →
        ∃ r ∈ s.attempts, r.id = aid) := by
  refine ⟨rfl, ?_⟩
  intro s hs
  have hs2 : s = db ∨
      s = applyOps db (save_transaction ip ts p cc tc aid results) := by
    simpa [observableStates] using hs
  rcases hs2 with rfl | rfl
  · constructor
    · rintro ⟨r, hr, hid⟩
      exact absurd hid (hA r hr)
    · rintro ⟨x, hx, hid⟩
      exact absurd hid (hB x hx)
  · constructor
    · intro _
      rw [applyOps_save_transaction_answers, List.filter_append]
      have h1 : db.answers.filter (fun x => x.attempt_id == aid) = [] := by
        rw [List.filter_eq_nil]
        intro x hx
        simpa using hB x hx
      have h2 : (results.map (answerRowOf aid)).filter
          (fun x => x.attempt_id == aid) = results.map (answerRowOf aid) := by
        rw [List.filter_eq_self]
        intro x hx
        obtain ⟨r, _, hr⟩ := List.mem_map.mp hx
        subst hr
        simp [answerRowOf]
      rw [h1, h2, List.nil_append]
    · intro _
      refine ⟨attemptRowOf aid ip ts p cc tc, ?_, rfl⟩
      rw [applyOps_save_transaction_attempts]
      exact List.mem_append_right _ (List.mem_singleton.mpr rfl)

theorem C7_atomic_persistence_witness :
    observableStates emptyDb
        [save_transaction "ip" "ts" 100 1 1 1 sampleResults] =
      [emptyDb,
       applyOps emptyDb (save_transaction "ip" "ts" 100 1 1 1 sampleResults)] ∧
    (applyOps emptyDb
        (save_transaction "ip" "ts" 100 1 1 1 sampleResults)).answers.filter
        (fun x => x.attempt_id == 1) = sampleResults.map (answerRowOf 1) :=
  ⟨(C7_atomic_persistence emptyDb "ip" "ts" 100 1 1 1 sampleResults
      (by simp [emptyDb]) (by simp [emptyDb])).1,
   (((C7_atomic_persistence emptyDb "ip" "ts" 100 1 1 1 sampleResults
      (by simp [emptyDb]) (by simp [emptyDb])).2
      (applyOps emptyDb (save_transaction "ip" "ts" 100 1 1 1 sampleResults))
      (by decide)).1
      ⟨attemptRowOf 1 "ip" "ts" 100 1 1, by decide, rfl⟩)⟩
